import Mathlib

/-!
Shallow embedding of `chainerrl/experiments/train_agent_batch.py` and proofs
about its batched training loop.

Modelling conventions:
* numpy float arrays (`episode_r`, `episode_len`, rewards) are `List ℚ`;
  the claims are about control flow and exact bookkeeping, not rounding.
* numpy bool arrays (`done`, masks) are `List Bool`.
* Collaborator calls (agent, environment, evaluator, file system, logger)
  are recorded as an `Effect` trace; a collaborator that raises is modelled
  by an `Except PyErr` entry in the input trace.
* Python `t % None` raises `TypeError`; `log_interval`, `max_episode_len`,
  `eval_interval` are `Option ℕ` (a configured `log_interval` is assumed
  positive, as in all uses of the original code).
* `np.mean` of an empty sequence yields NaN (printed `nan`), never an
  exception; we model the mean as `Option ℚ` with `none` standing for NaN.
-/

namespace ChainerRL

/-- Python exception classes that the embedded code can raise. -/
inductive PyErr where
  | typeError
  | attributeError
  | other (n : ℕ)
deriving DecidableEq, Repr

/-- Observable calls to collaborators (agent, env, evaluator, files, logger). -/
inductive Effect where
  | logErrorNotVectorEnv
  | envResetAll
  | setAgentT (t : ℕ)
  | agentAct (t : ℕ)
  | envStep
  | envResetMask (masks : List Bool)
  | agentObserve (r : List ℚ) (done : List Bool) (infoReset : List Bool)
  | stepHook (h : ℕ) (t : ℕ)
  | fileAppend (path : String) (line : String)
  | logProgress (t : ℕ)
  | evalCheck (t : ℕ)
  | saveAgent (t : ℕ) (suffix : String)
  | closeEnv
  | closeEvalEnv
  | promptYesNo (msg : String)
  | saveReplayBuffer (path : String)
  | logInfoSaved (path : String)
deriving DecidableEq, Repr

/-- The agent as seen by the replay-buffer helpers: it may or may not expose a
`replay_buffer`; the buffer's transitions are abstracted to `ℕ`. -/
structure ReplayAgent where
  replay_buffer : Option (List ℕ)
deriving Repr

/-- `save_agent_replay_buffer(agent, t, outdir, suffix)`: serialize the replay
buffer to `<outdir>/<t><suffix>.replay.pkl` and log the destination. -/
def save_agent_replay_buffer (t : ℕ) (outdir : String) (suffix : String) :
    List Effect :=
  let filename := outdir ++ "/" ++ toString t ++ suffix ++ ".replay.pkl"
  [Effect.saveReplayBuffer filename, Effect.logInfoSaved filename]

/-- `ask_and_save_agent_replay_buffer(agent, t, outdir, suffix)`: when the
agent has a `replay_buffer` attribute, ask the user (the message quotes the
buffer length) and save on an affirmative answer.  `answer` is the user's
reply to the prompt. -/
def ask_and_save_agent_replay_buffer (agent : ReplayAgent) (t : ℕ)
    (outdir : String) (suffix : String) (answer : Bool) : List Effect :=
  match agent.replay_buffer with
  | none => []
  | some buf =>
    Effect.promptYesNo ("Replay buffer has " ++ toString buf.length ++
        " transitions. Do you save them to a file?") ::
      (if answer then save_agent_replay_buffer t outdir suffix else [])

/-- `_get_mask`, first half: the reset mask.  `max_episode_len is None` gives
`np.zeros(num_processes, dtype=bool)`; otherwise numpy compares
`episode_len == max_episode_len` elementwise (note: the loop calls this with
the episode lengths BEFORE this iteration's increment). -/
def reset_mask_of (num_processes : ℕ) (episode_len : List ℚ)
    (max_episode_len : Option ℕ) : List Bool :=
  match max_episode_len with
  | none => List.replicate num_processes false
  | some m => episode_len.map (fun l => decide (l = (m : ℚ)))

/-- `_get_mask`, second half (also inlined at line 115 of the source):
`np.logical_not(np.logical_or(reset_mask, done))`. -/
def continuation_mask (reset_mask done : List Bool) : List Bool :=
  List.zipWith (fun rm d => !(rm || d)) reset_mask done

/-- `_write_to_file(outdir, step, avg_r)`: append one line
`str(step) + "\t" + str(avg_r) + "\n"` to `<outdir>/training_r.txt`
(mode `a+`: created if absent).  The decimal rendering of the float average
is abstracted to the string `avg`. -/
def write_to_file (outdir : String) (step : ℕ) (avg : String) : Effect :=
  Effect.fileAppend (outdir ++ "/training_r.txt")
    (toString step ++ "\t" ++ avg ++ "\n")

/-- `np.mean` over the recent-returns window: `none` models NaN (numpy's
mean of an empty array), otherwise the exact average. -/
def npMean (xs : List ℚ) : Option ℚ :=
  if xs.isEmpty then none else some (xs.sum / xs.length)

/-- `str(...)` of the mean: NaN prints as `nan`; a finite value's decimal
rendering is abstracted by `toString` on `ℚ`. -/
def formatAvg : Option ℚ → String
  | none => "nan"
  | some q => toString q

/-- `deque(maxlen).extend(xs)`: append `xs`, then drop the oldest entries
beyond the capacity. -/
def dequeExtend (maxlen : ℕ) (q xs : List ℚ) : List ℚ :=
  let q2 := q ++ xs
  q2.drop (q2.length - maxlen)

/-- `np.ma.masked_array(episode_r, masks).compressed()`: the entries whose
mask is `false` (= episode just ended), in slot order. -/
def compressedEnded (episode_r : List ℚ) (masks : List Bool) : List ℚ :=
  (List.zip episode_r masks).filterMap
    (fun p => if p.2 then none else some p.1)

/-- Elementwise `episode_r += r`. -/
def addLists (xs ys : List ℚ) : List ℚ := List.zipWith (· + ·) xs ys

/-- Elementwise `xs *= masks` on a float array (`True = 1`, `False = 0`). -/
def mulMask (xs : List ℚ) (ms : List Bool) : List ℚ :=
  List.zipWith (fun x m => if m then x else 0) xs ms

/-- Elementwise `episode_idx += 1 - masks`. -/
def incIdx (idx : List ℕ) (ms : List Bool) : List ℕ :=
  List.zipWith (fun i m => if m then i else i + 1) idx ms

/-- The loop's per-instance bookkeeping plus the global step counter. -/
structure LoopState where
  episode_r : List ℚ
  episode_idx : List ℕ
  episode_len : List ℚ
  recent_returns : List ℚ
  t : ℕ
deriving DecidableEq, Repr

/-- The configuration bundle of `train_agent_batch`.  `evaluator` records
whether an evaluator was passed; `num_hooks` the length of `step_hooks`;
`agent_has_t` whether the agent exposes a step counter `t`. -/
structure TrainConfig where
  steps : ℕ
  outdir : String
  log_interval : Option ℕ
  max_episode_len : Option ℕ
  eval_interval : Option ℕ
  step_offset : ℕ
  evaluator : Bool
  successful_score : Option ℚ
  num_hooks : ℕ
  return_window_size : ℕ
  save_training_r : Bool
  agent_has_t : Bool
deriving Repr

/-- One iteration's environment response: `env.step` rewards and done flags,
plus the evaluator's `max_score` as observed if evaluation runs this
iteration. -/
structure EnvStep where
  r : List ℚ
  done : List Bool
  evalMaxScore : ℚ
deriving Repr

/-- The vector environment: `num_envs` is `none` when the attribute is
missing (a plain, non-vector env), raising `AttributeError` on access. -/
structure BatchEnv where
  num_envs : Option ℕ
deriving Repr

/-- Outcome of one loop iteration. -/
inductive IterResult where
  | cont (st : LoopState)
  | brk (st : LoopState)
  | raised (e : PyErr) (t : ℕ)
deriving DecidableEq, Repr

/-- The continuation mask of one iteration (source line 115), applied to the
reset mask computed from the pre-increment episode lengths and the done
flags. -/
def iterMasks (cfg : TrainConfig) (N : ℕ) (st : LoopState) (es : EnvStep) :
    List Bool :=
  continuation_mask (reset_mask_of N st.episode_len cfg.max_episode_len) es.done

/-- The pure state update of one iteration (source lines 107-130): compute
the masks, accumulate reward and length, bump `episode_idx` for ended slots,
extend the returns window with the ended slots' returns, zero the ended
slots, advance `t` by the instance count. -/
def updState (cfg : TrainConfig) (N : ℕ) (st : LoopState) (es : EnvStep) :
    LoopState :=
  let masks := iterMasks cfg N st es
  let episode_r1 := addLists st.episode_r es.r
  let episode_len1 := st.episode_len.map (· + 1)
  { episode_r := mulMask episode_r1 masks
    episode_idx := incIdx st.episode_idx masks
    episode_len := mulMask episode_len1 masks
    recent_returns := dequeExtend cfg.return_window_size st.recent_returns
      (compressedEnded episode_r1 masks)
    t := st.t + N }

/-- The tail of an iteration (source lines 138-148): progress logging and the
evaluator check, gated on `eval_interval is not None and t % log_interval == 0`
(`t % None` raises `TypeError`); breaks the loop when the evaluator's best
score reaches `successful_score`. -/
def evalPhase (cfg : TrainConfig) (st2 : LoopState) (es : EnvStep) (t : ℕ)
    (effs : List Effect) : IterResult × List Effect :=
  match cfg.eval_interval with
  | none => (IterResult.cont st2, effs)
  | some _ =>
    match cfg.log_interval with
    | none => (IterResult.raised PyErr.typeError t, effs)
    | some l =>
      if t % l = 0 then
        let effs2 := effs ++ [Effect.logProgress t]
        if cfg.evaluator then
          let effs3 := effs2 ++ [Effect.evalCheck t]
          match cfg.successful_score with
          | some s =>
            if s ≤ es.evalMaxScore then (IterResult.brk st2, effs3)
            else (IterResult.cont st2, effs3)
          | none => (IterResult.cont st2, effs3)
        else (IterResult.cont st2, effs2)
      else (IterResult.cont st2, effs)

/-- One full iteration of the while loop (source lines 101-148): act, step,
mask, selective reset, observe, bookkeeping, hooks, optional training-reward
write (`save_training_r and t % log_interval == 0`; `t % None` raises
`TypeError`), then the evaluator phase. -/
def stepIter (cfg : TrainConfig) (N : ℕ) (st : LoopState) (es : EnvStep) :
    IterResult × List Effect :=
  let reset_mask := reset_mask_of N st.episode_len cfg.max_episode_len
  let masks := iterMasks cfg N st es
  let st2 := updState cfg N st es
  let t := st.t + N
  let effs := [Effect.agentAct st.t, Effect.envStep, Effect.envResetMask masks,
      Effect.agentObserve es.r es.done reset_mask]
    ++ (List.range cfg.num_hooks).map (fun h => Effect.stepHook h t)
  if cfg.save_training_r then
    match cfg.log_interval with
    | none => (IterResult.raised PyErr.typeError t, effs)
    | some l =>
      let effs2 :=
        if t % l = 0 then
          effs ++ [write_to_file cfg.outdir t
            (formatAvg (npMean st2.recent_returns))]
        else effs
      evalPhase cfg st2 es t effs2
  else
    evalPhase cfg st2 es t effs

/-- Overall outcome of the while loop.  `outOfTrace` is a model artifact:
the supplied environment trace ended while `t < steps`. -/
inductive LoopOutcome where
  | finished (st : LoopState)
  | earlyStop (st : LoopState)
  | raised (e : PyErr) (t : ℕ)
  | outOfTrace (st : LoopState)
deriving DecidableEq, Repr

/-- The while loop (source lines 101-148), driven by a trace of environment
responses; an `Except.error` entry models a collaborator raising during that
iteration (before the bookkeeping). -/
def trainLoop (cfg : TrainConfig) (N : ℕ) :
    LoopState → List (Except PyErr EnvStep) → LoopOutcome × List Effect
  | st, trace =>
    if cfg.steps ≤ st.t then (LoopOutcome.finished st, [])
    else
      match trace with
      | [] => (LoopOutcome.outOfTrace st, [])
      | Except.error e :: _ => (LoopOutcome.raised e st.t, [])
      | Except.ok es :: rest =>
        match stepIter cfg N st es with
        | (IterResult.raised e t, effs) => (LoopOutcome.raised e t, effs)
        | (IterResult.brk st2, effs) => (LoopOutcome.earlyStop st2, effs)
        | (IterResult.cont st2, effs) =>
          let p := trainLoop cfg N st2 rest
          (p.1, effs ++ p.2)

/-- Initial bookkeeping state (source lines 88-96): zero arrays of length
`num_processes`, empty returns window, `t = step_offset`. -/
def initState (N : ℕ) (step_offset : ℕ) : LoopState :=
  { episode_r := List.replicate N 0
    episode_idx := List.replicate N 0
    episode_len := List.replicate N 0
    recent_returns := []
    t := step_offset }

/-- Effects before the loop starts: `env.reset()` then, if the agent has a
step counter, `agent.t = step_offset`. -/
def initEffects (cfg : TrainConfig) : List Effect :=
  Effect.envResetAll ::
    (if cfg.agent_has_t then [Effect.setAgentT cfg.step_offset] else [])

/-- Result of `train_agent_batch` as seen by the caller: normal return, a
propagated exception, or the model artifact of an exhausted trace. -/
inductive RunResult where
  | ok
  | error (e : PyErr)
  | truncated
deriving DecidableEq, Repr

/-- `train_agent_batch(agent, env, steps, outdir, ...)`: check `env.num_envs`
(log and re-raise `AttributeError` when missing), initialize, run the loop;
on an exception save `_except` at the current `t`, close the env, close the
evaluator's env when an evaluator exists, re-raise; on normal exit (including
the early-success break) save `_finish`. -/
def train_agent_batch (cfg : TrainConfig) (env : BatchEnv)
    (trace : List (Except PyErr EnvStep)) : RunResult × List Effect :=
  match env.num_envs with
  | none => (RunResult.error PyErr.attributeError, [Effect.logErrorNotVectorEnv])
  | some N =>
    match trainLoop cfg N (initState N cfg.step_offset) trace with
    | (LoopOutcome.finished st, effs) =>
      (RunResult.ok, initEffects cfg ++ effs ++ [Effect.saveAgent st.t "_finish"])
    | (LoopOutcome.earlyStop st, effs) =>
      (RunResult.ok, initEffects cfg ++ effs ++ [Effect.saveAgent st.t "_finish"])
    | (LoopOutcome.raised e t, effs) =>
      (RunResult.error e,
        initEffects cfg ++ effs ++ [Effect.saveAgent t "_except", Effect.closeEnv]
          ++ (if cfg.evaluator then [Effect.closeEvalEnv] else []))
    | (LoopOutcome.outOfTrace _, effs) =>
      (RunResult.truncated, initEffects cfg ++ effs)

/-- Recognizer for prompt effects. -/
def isPrompt : Effect → Bool
  | Effect.promptYesNo _ => true
  | _ => false

/-- Recognizer for replay-buffer save effects. -/
def isSaveReplay : Effect → Bool
  | Effect.saveReplayBuffer _ => true
  | _ => false

/-- Recognizer for file-append effects. -/
def isFileAppend : Effect → Bool
  | Effect.fileAppend _ _ => true
  | _ => false

/-! Concrete instances used in the scenario theorems and witnesses. -/

/-- Bare config: N envs trained for `steps` steps, all optional features off. -/
def plainConfig (steps : ℕ) : TrainConfig :=
  { steps := steps, outdir := "out", log_interval := none,
    max_episode_len := none, eval_interval := none, step_offset := 0,
    evaluator := false, successful_score := none, num_hooks := 0,
    return_window_size := 100, save_training_r := false, agent_has_t := false }

/-- Config for the truncation scenario: `max_episode_len = 1`. -/
def truncConfig : TrainConfig :=
  { plainConfig 3 with max_episode_len := some 1 }

/-- Environment response for the truncation scenario: reward 1, never done. -/
def truncStep : EnvStep := { r := [1], done := [false], evalMaxScore := 0 }

/-- First environment response of the two-env scenario. -/
def twoEnvStepA : EnvStep := { r := [1, 2], done := [false, true], evalMaxScore := 0 }

/-- Second environment response of the two-env scenario. -/
def twoEnvStepB : EnvStep := { r := [3, 4], done := [true, false], evalMaxScore := 0 }

/-- Config with `save_training_r` on but `log_interval` unset. -/
def noIntervalConfig : TrainConfig :=
  { plainConfig 2 with save_training_r := true }

/-- Config with `save_training_r` and `log_interval = 1`. -/
def writeConfig : TrainConfig :=
  { plainConfig 2 with save_training_r := true, log_interval := some 1 }

set_option linter.unusedTactic false in
/-- Helper: `evalPhase` only appends effects. -/
lemma evalPhase_effects (cfg : TrainConfig) (st2 : LoopState) (es : EnvStep)
    (t : ℕ) (effs : List Effect) :
    ∃ tail, (evalPhase cfg st2 es t effs).2 = effs ++ tail := by
  unfold evalPhase
  repeat' split
  all_goals first
    | (refine ⟨[], ?_⟩; simp; done)
    | (refine ⟨[Effect.logProgress t], ?_⟩; simp; done)
    | (refine ⟨[Effect.logProgress t, Effect.evalCheck t], ?_⟩; simp; done)

/-- Helper: `evalPhase` returns the state it was given. -/
lemma evalPhase_state (cfg : TrainConfig) (st2 : LoopState) (es : EnvStep)
    (t : ℕ) (effs : List Effect) (stR : LoopState) (effsR : List Effect)
    (h : evalPhase cfg st2 es t effs = (IterResult.cont stR, effsR)
       ∨ evalPhase cfg st2 es t effs = (IterResult.brk stR, effsR)) :
    stR = st2 := by
  unfold evalPhase at h
  rcases h with h | h <;>
    · repeat' split at h
      all_goals simp_all

/-- Helper: the early-success break needs an eval interval, an evaluator and
a configured `successful_score`. -/
lemma evalPhase_brk_config (cfg : TrainConfig) (st2 : LoopState) (es : EnvStep)
    (t : ℕ) (effs : List Effect) (stR : LoopState) (effsR : List Effect)
    (h : evalPhase cfg st2 es t effs = (IterResult.brk stR, effsR)) :
    cfg.eval_interval.isSome = true ∧ cfg.evaluator = true
      ∧ cfg.successful_score.isSome = true := by
  unfold evalPhase at h
  repeat' split at h
  all_goals simp_all

/-- Helper: a `cont` or `brk` iteration's resulting state is `updState`. -/
lemma stepIter_state (cfg : TrainConfig) (N : ℕ) (st : LoopState)
    (es : EnvStep) (stR : LoopState) (effsR : List Effect)
    (h : stepIter cfg N st es = (IterResult.cont stR, effsR)
       ∨ stepIter cfg N st es = (IterResult.brk stR, effsR)) :
    stR = updState cfg N st es := by
  unfold stepIter at h
  rcases h with h | h <;>
  · by_cases hs : cfg.save_training_r = true <;>
      simp only [hs, if_true, if_false, Bool.false_eq_true] at h
    · rcases hli : cfg.log_interval with _ | l <;> rw [hli] at h
      · simp at h
      · by_cases hdue : (st.t + N) % l = 0 <;>
          simp only [hdue, if_true, if_false] at h <;>
          first
          | exact evalPhase_state _ _ _ _ _ _ _ (Or.inl h)
          | exact evalPhase_state _ _ _ _ _ _ _ (Or.inr h)
    · first
      | exact evalPhase_state _ _ _ _ _ _ _ (Or.inl h)
      | exact evalPhase_state _ _ _ _ _ _ _ (Or.inr h)

/-- Helper: `stepIter` breaks only under the evaluator success condition. -/
lemma stepIter_brk_config (cfg : TrainConfig) (N : ℕ) (st : LoopState)
    (es : EnvStep) (stR : LoopState) (effsR : List Effect)
    (h : stepIter cfg N st es = (IterResult.brk stR, effsR)) :
    cfg.eval_interval.isSome = true ∧ cfg.evaluator = true
      ∧ cfg.successful_score.isSome = true := by
  unfold stepIter at h
  by_cases hs : cfg.save_training_r = true <;>
    simp only [hs, if_true, if_false, Bool.false_eq_true] at h
  · rcases hli : cfg.log_interval with _ | l <;> rw [hli] at h
    · simp at h
    · by_cases hdue : (st.t + N) % l = 0 <;>
        simp only [hdue, if_true, if_false] at h <;>
        exact evalPhase_brk_config _ _ _ _ _ _ _ h
  · exact evalPhase_brk_config _ _ _ _ _ _ _ h

/-- Helper: an iteration's effect trace starts with the act/step/reset/observe
calls and the hooks. -/
lemma stepIter_effects (cfg : TrainConfig) (N : ℕ) (st : LoopState)
    (es : EnvStep) :
    ∃ tail, (stepIter cfg N st es).2
      = [Effect.agentAct st.t, Effect.envStep,
         Effect.envResetMask (iterMasks cfg N st es),
         Effect.agentObserve es.r es.done
           (reset_mask_of N st.episode_len cfg.max_episode_len)]
        ++ (List.range cfg.num_hooks).map
            (fun h => Effect.stepHook h (st.t + N)) ++ tail := by
  unfold stepIter
  by_cases hs : cfg.save_training_r = true <;>
    simp only [hs, if_true, if_false, Bool.false_eq_true]
  · rcases hli : cfg.log_interval with _ | l <;> dsimp only
    · exact ⟨[], by simp⟩
    · by_cases hdue : (st.t + N) % l = 0 <;>
        simp only [hdue, if_true, if_false]
      · obtain ⟨tail, ht⟩ := evalPhase_effects cfg (updState cfg N st es) es
          (st.t + N) _
        rw [ht]
        exact ⟨write_to_file cfg.outdir (st.t + N)
          (formatAvg (npMean (updState cfg N st es).recent_returns)) :: tail, by simp⟩
      · obtain ⟨tail, ht⟩ := evalPhase_effects cfg (updState cfg N st es) es
          (st.t + N) _
        rw [ht]
        exact ⟨tail, by simp⟩
  · obtain ⟨tail, ht⟩ := evalPhase_effects cfg (updState cfg N st es) es
      (st.t + N) _
    rw [ht]
    exact ⟨tail, by simp⟩

/-- Claim C2 (evidence): with `max_episode_len = 1` the code does not truncate
once an episode has run 1 step.  A fresh slot (`episode_len = 0`, so the
length after this iteration's increment reaches 1) gets reset mask `false`;
running the loop (N = 1, reward 1, never done) leaves the episode alive after
one iteration (`episode_idx = [0]`, `episode_len = [1]`), and only the second
iteration truncates it, recording a two-step return of 2 — the episode ran
`max_episode_len + 1` steps. -/
theorem truncation_off_by_one :
    reset_mask_of 1 [0] (some 1) = [false]
  ∧ (trainLoop truncConfig 1 (initState 1 0) [Except.ok truncStep]).1
      = LoopOutcome.outOfTrace
          { episode_r := [1], episode_idx := [0], episode_len := [1],
            recent_returns := [], t := 1 }
  ∧ (trainLoop truncConfig 1 (initState 1 0)
        [Except.ok truncStep, Except.ok truncStep]).1
      = LoopOutcome.outOfTrace
          { episode_r := [0], episode_idx := [1], episode_len := [0],
            recent_returns := [2], t := 2 } := by
  norm_num [trainLoop, stepIter, updState, evalPhase, truncConfig, plainConfig,
    initState, truncStep, reset_mask_of, continuation_mask, addLists, mulMask,
    incIdx, dequeExtend, compressedEnded, npMean, formatAvg, write_to_file,
    List.replicate, List.zipWith, List.zip, List.filterMap, List.drop, List.map]

/-- Claim C6: with N = 2, `total_steps = 4`, `max_episode_len` unset,
done = [false, true] then [true, false]: after the first iteration slot 1's
return (2) is in the recent-returns window and `episode_idx = [0, 1]`; after
the second iteration the loop finishes with t = 4, slot 0's return (4)
recorded, and `episode_idx = [1, 1]`. -/
theorem two_env_scenario :
    (trainLoop (plainConfig 4) 2 (initState 2 0) [Except.ok twoEnvStepA]).1
      = LoopOutcome.outOfTrace
          { episode_r := [1, 0], episode_idx := [0, 1], episode_len := [1, 0],
            recent_returns := [2], t := 2 }
  ∧ (trainLoop (plainConfig 4) 2 (initState 2 0)
        [Except.ok twoEnvStepA, Except.ok twoEnvStepB]).1
      = LoopOutcome.finished
          { episode_r := [0, 4], episode_idx := [1, 1], episode_len := [0, 1],
            recent_returns := [2, 4], t := 4 } := by
  norm_num [trainLoop, stepIter, updState, evalPhase, plainConfig,
    initState, twoEnvStepA, twoEnvStepB, reset_mask_of, continuation_mask,
    addLists, mulMask, incIdx, dequeExtend, compressedEnded, npMean,
    List.replicate, List.zipWith, List.zip, List.filterMap, List.drop, List.map]

/-- Claim C8: when the environment lacks `num_envs`, `train_agent_batch` logs
the error and re-raises it at once: the result is the `AttributeError` and the
only effect is the log — no reset, no step, no training call, no checkpoint,
no file write. -/
theorem missing_num_envs_aborts (cfg : TrainConfig) (env : BatchEnv)
    (trace : List (Except PyErr EnvStep)) (h : env.num_envs = none) :
    train_agent_batch cfg env trace
      = (RunResult.error PyErr.attributeError, [Effect.logErrorNotVectorEnv]) := by
  simp [train_agent_batch, h]

/-- Witness for `missing_num_envs_aborts` at a concrete configuration. -/
theorem missing_num_envs_aborts_witness :
    train_agent_batch (plainConfig 2) { num_envs := none } []
      = (RunResult.error PyErr.attributeError, [Effect.logErrorNotVectorEnv]) :=
  missing_num_envs_aborts (plainConfig 2) { num_envs := none } [] rfl

/-- Claim C9 (counterexample): an agent whose replay buffer is EMPTY is still
prompted (the message quotes "0 transitions"), and on an affirmative answer
the buffer is saved — refuting "with an empty one, no prompt is issued and
nothing is saved". -/
theorem ask_prompts_on_empty_buffer :
    ¬ ((ask_and_save_agent_replay_buffer { replay_buffer := some [] } 7 "out" "" true).filter
          isPrompt = []
       ∧ (ask_and_save_agent_replay_buffer { replay_buffer := some [] } 7 "out" "" true).filter
          isSaveReplay = []) := by
  decide

/-- Claim C9 (amended): the wrapper prompts exactly when the agent exposes a
replay buffer — regardless of its length — and a save happens exactly when it
does and the answer is affirmative; with no replay buffer there is neither
prompt nor save. -/
theorem ask_prompt_iff_buffer_present (agent : ReplayAgent) (t : ℕ)
    (outdir suffix : String) (answer : Bool) :
    ((ask_and_save_agent_replay_buffer agent t outdir suffix answer).filter
        isPrompt).length = (if agent.replay_buffer.isSome then 1 else 0)
  ∧ ((ask_and_save_agent_replay_buffer agent t outdir suffix answer).filter
        isSaveReplay).length
      = (if agent.replay_buffer.isSome && answer then 1 else 0) := by
  rcases agent with ⟨_ | buf⟩ <;> cases answer <;>
    simp [ask_and_save_agent_replay_buffer, save_agent_replay_buffer,
      isPrompt, isSaveReplay, List.filter]

/-- Claim C1: if the loop raises `e` at step `t`, `train_agent_batch` saves a
`_except` checkpoint at `t`, closes the primary env, closes the evaluator's
env when an evaluator exists, and re-raises `e` unmodified; on normal
completion (steps exhausted or early success) it saves a `_finish`
checkpoint. -/
theorem exception_and_finish_checkpoints (cfg : TrainConfig) (env : BatchEnv)
    (trace : List (Except PyErr EnvStep)) (N : ℕ) (hN : env.num_envs = some N) :
    (∀ e t effs,
        trainLoop cfg N (initState N cfg.step_offset) trace
            = (LoopOutcome.raised e t, effs) →
        train_agent_batch cfg env trace
          = (RunResult.error e,
             initEffects cfg ++ effs
               ++ [Effect.saveAgent t "_except", Effect.closeEnv]
               ++ (if cfg.evaluator then [Effect.closeEvalEnv] else [])))
  ∧ (∀ st effs,
        (trainLoop cfg N (initState N cfg.step_offset) trace
            = (LoopOutcome.finished st, effs)
         ∨ trainLoop cfg N (initState N cfg.step_offset) trace
            = (LoopOutcome.earlyStop st, effs)) →
        train_agent_batch cfg env trace
          = (RunResult.ok,
             initEffects cfg ++ effs ++ [Effect.saveAgent st.t "_finish"])) := by
  constructor
  · intro e t effs hrun
    simp [train_agent_batch, hN, hrun]
  · rintro st effs (hrun | hrun) <;> simp [train_agent_batch, hN, hrun]

/-- Witness for `exception_and_finish_checkpoints`: a collaborator raising in
the first iteration yields the `_except` checkpoint at t = 0, the env close,
and the same error. -/
theorem exception_and_finish_checkpoints_witness :
    train_agent_batch (plainConfig 2) { num_envs := some 1 }
        [Except.error (PyErr.other 0)]
      = (RunResult.error (PyErr.other 0),
         initEffects (plainConfig 2) ++ ([] : List Effect)
           ++ [Effect.saveAgent 0 "_except", Effect.closeEnv]
           ++ (if (plainConfig 2).evaluator then [Effect.closeEvalEnv] else [])) :=
  (exception_and_finish_checkpoints (plainConfig 2) { num_envs := some 1 }
      [Except.error (PyErr.other 0)] 1 rfl).1
    (PyErr.other 0) 0 [] (by decide)



/-- Helper: the iteration mask has one entry per instance. -/
lemma iterMasks_length (cfg : TrainConfig) (N : ℕ) (st : LoopState)
    (es : EnvStep) (hlen : st.episode_len.length = N)
    (hd : es.done.length = N) :
    (iterMasks cfg N st es).length = N := by
  unfold iterMasks continuation_mask reset_mask_of
  rcases cfg.max_episode_len with _ | m <;>
    simp [List.length_zipWith, hlen, hd]

/-- Helper: elementwise value of `episode_r += r`. -/
lemma addLists_getElem (xs ys : List ℚ) (i : ℕ) (hx : i < xs.length)
    (hy : i < ys.length) :
    (addLists xs ys)[i]? = some (xs.get ⟨i, hx⟩ + ys.get ⟨i, hy⟩) := by
  have hb : i < (addLists xs ys).length := by
    simp [addLists, List.length_zipWith]; omega
  rw [List.getElem?_eq_getElem hb]
  simp [addLists, List.getElem_zipWith, List.get_eq_getElem]

/-- Helper: elementwise value of `xs *= masks`. -/
lemma mulMask_getElem (xs : List ℚ) (ms : List Bool) (i : ℕ)
    (hx : i < xs.length) (hm : i < ms.length) :
    (mulMask xs ms)[i]? = some (if ms.get ⟨i, hm⟩ then xs.get ⟨i, hx⟩ else 0) := by
  have hb : i < (mulMask xs ms).length := by
    simp [mulMask, List.length_zipWith]; omega
  rw [List.getElem?_eq_getElem hb]
  simp [mulMask, List.getElem_zipWith, List.get_eq_getElem]

/-- Helper: elementwise value of `episode_idx += 1 - masks`. -/
lemma incIdx_getElem (xs : List ℕ) (ms : List Bool) (i : ℕ)
    (hx : i < xs.length) (hm : i < ms.length) :
    (incIdx xs ms)[i]? = some (if ms.get ⟨i, hm⟩ then xs.get ⟨i, hx⟩
      else xs.get ⟨i, hx⟩ + 1) := by
  have hb : i < (incIdx xs ms).length := by
    simp [incIdx, List.length_zipWith]; omega
  rw [List.getElem?_eq_getElem hb]
  simp [incIdx, List.getElem_zipWith, List.get_eq_getElem]

/-- Helper: a false-masked slot's value is among the compressed entries. -/
lemma compressedEnded_mem (xs : List ℚ) (ms : List Bool) (i : ℕ)
    (hx : i < xs.length) (hm : i < ms.length)
    (hfalse : ms.get ⟨i, hm⟩ = false) :
    xs.get ⟨i, hx⟩ ∈ compressedEnded xs ms := by
  unfold compressedEnded
  rw [List.mem_filterMap]
  refine ⟨(xs.get ⟨i, hx⟩, false), ?_, by simp⟩
  rw [List.mem_iff_getElem]
  have hz : i < (xs.zip ms).length := by simp [List.length_zip]; omega
  refine ⟨i, hz, ?_⟩
  rw [List.getElem_zip]
  simp [List.get_eq_getElem] at hfalse ⊢
  exact hfalse

/-- Claim C3: on every iteration, for any done flags and reset-mask values,
the continuation mask is the elementwise negation of (done OR reset): a slot
is true iff it is neither done nor forced-reset.  The mask sent to the
selective `env.reset` of an iteration is exactly this mask on that
iteration's reset mask and done flags. -/
theorem continuation_mask_negation (cfg : TrainConfig) (N : ℕ) (st : LoopState)
    (es : EnvStep) (reset done : List Bool) (i : ℕ)
    (h1 : i < reset.length) (h2 : i < done.length) :
    (continuation_mask reset done)[i]?
        = some (!(done.get ⟨i, h2⟩ || reset.get ⟨i, h1⟩))
  ∧ Effect.envResetMask (iterMasks cfg N st es) ∈ (stepIter cfg N st es).2
  ∧ iterMasks cfg N st es
      = continuation_mask (reset_mask_of N st.episode_len cfg.max_episode_len)
          es.done := by
  refine ⟨?_, ?_, rfl⟩
  · have hb : i < (continuation_mask reset done).length := by
      simp [continuation_mask, List.length_zipWith]; omega
    rw [List.getElem?_eq_getElem hb]
    simp [continuation_mask, List.getElem_zipWith, List.get_eq_getElem,
      Bool.or_comm]
  · obtain ⟨tail, ht⟩ := stepIter_effects cfg N st es
    rw [ht]; simp

/-- Claim C4: in every iteration, a slot whose continuation mask is false has
its accumulated return (including this step's reward) put into the batch
extended onto the recent-returns window, its `episode_r` and `episode_len`
reset to 0, and its `episode_idx` incremented by exactly 1; a true-mask slot
keeps accumulating and its `episode_idx` is unchanged. -/
theorem episode_bookkeeping (cfg : TrainConfig) (N : ℕ) (st : LoopState)
    (es : EnvStep) (stR : LoopState) (effsR : List Effect) (i : ℕ)
    (hr : st.episode_r.length = N) (hx : st.episode_idx.length = N)
    (hlen : st.episode_len.length = N) (her : es.r.length = N)
    (hd : es.done.length = N) (hi : i < N)
    (hstep : stepIter cfg N st es = (IterResult.cont stR, effsR)
       ∨ stepIter cfg N st es = (IterResult.brk stR, effsR)) :
    stR.recent_returns
        = dequeExtend cfg.return_window_size st.recent_returns
            (compressedEnded (addLists st.episode_r es.r) (iterMasks cfg N st es))
  ∧ ((iterMasks cfg N st es)[i]? = some false →
        stR.episode_r[i]? = some 0
      ∧ stR.episode_len[i]? = some 0
      ∧ stR.episode_idx[i]? = some (st.episode_idx.get ⟨i, by omega⟩ + 1)
      ∧ st.episode_r.get ⟨i, by omega⟩ + es.r.get ⟨i, by omega⟩
          ∈ compressedEnded (addLists st.episode_r es.r) (iterMasks cfg N st es))
  ∧ ((iterMasks cfg N st es)[i]? = some true →
        stR.episode_r[i]?
          = some (st.episode_r.get ⟨i, by omega⟩ + es.r.get ⟨i, by omega⟩)
      ∧ stR.episode_len[i]? = some (st.episode_len.get ⟨i, by omega⟩ + 1)
      ∧ stR.episode_idx[i]? = some (st.episode_idx.get ⟨i, by omega⟩)) := by
  have hstR : stR = updState cfg N st es := stepIter_state cfg N st es stR effsR hstep
  subst hstR
  have hmlen : (iterMasks cfg N st es).length = N :=
    iterMasks_length cfg N st es hlen hd
  have hmi : i < (iterMasks cfg N st es).length := by omega
  have hra : i < (addLists st.episode_r es.r).length := by
    simp [addLists, List.length_zipWith]; omega
  have hl1 : i < (st.episode_len.map (· + 1)).length := by simp; omega
  have hxi : i < st.episode_idx.length := by omega
  have haddv : (addLists st.episode_r es.r).get ⟨i, hra⟩
      = st.episode_r.get ⟨i, by omega⟩ + es.r.get ⟨i, by omega⟩ := by
    simp [addLists, List.get_eq_getElem, List.getElem_zipWith]
  refine ⟨rfl, ?_, ?_⟩
  · intro hmask
    rw [List.getElem?_eq_getElem hmi] at hmask
    have hmv : (iterMasks cfg N st es).get ⟨i, hmi⟩ = false := by
      simpa [List.get_eq_getElem] using hmask
    refine ⟨?_, ?_, ?_, ?_⟩
    · show (mulMask (addLists st.episode_r es.r) (iterMasks cfg N st es))[i]?
        = some 0
      rw [mulMask_getElem _ _ i hra hmi, hmv]
      simp
    · show (mulMask (st.episode_len.map (· + 1)) (iterMasks cfg N st es))[i]?
        = some 0
      rw [mulMask_getElem _ _ i hl1 hmi, hmv]
      simp
    · show (incIdx st.episode_idx (iterMasks cfg N st es))[i]?
        = some (st.episode_idx.get ⟨i, hxi⟩ + 1)
      rw [incIdx_getElem _ _ i hxi hmi, hmv]
      simp
    · have := compressedEnded_mem (addLists st.episode_r es.r)
        (iterMasks cfg N st es) i hra hmi hmv
      rwa [haddv] at this
  · intro hmask
    rw [List.getElem?_eq_getElem hmi] at hmask
    have hmv : (iterMasks cfg N st es).get ⟨i, hmi⟩ = true := by
      simpa [List.get_eq_getElem] using hmask
    refine ⟨?_, ?_, ?_⟩
    · show (mulMask (addLists st.episode_r es.r) (iterMasks cfg N st es))[i]?
        = some (st.episode_r.get ⟨i, by omega⟩ + es.r.get ⟨i, by omega⟩)
      rw [mulMask_getElem _ _ i hra hmi, hmv, if_pos rfl, haddv]
    · show (mulMask (st.episode_len.map (· + 1)) (iterMasks cfg N st es))[i]?
        = some (st.episode_len.get ⟨i, by omega⟩ + 1)
      rw [mulMask_getElem _ _ i hl1 hmi, hmv, if_pos rfl]
      simp [List.get_eq_getElem, List.getElem_map]
    · show (incIdx st.episode_idx (iterMasks cfg N st es))[i]?
        = some (st.episode_idx.get ⟨i, hxi⟩)
      rw [incIdx_getElem _ _ i hxi hmi, hmv, if_pos rfl]

/-- Helper: the loop exits at once when `t` already reached `steps`. -/
lemma trainLoop_stop (cfg : TrainConfig) (N : ℕ) (st : LoopState)
    (trace : List (Except PyErr EnvStep)) (h : cfg.steps ≤ st.t) :
    trainLoop cfg N st trace = (LoopOutcome.finished st, []) := by
  rw [trainLoop.eq_def]
  dsimp only
  rw [if_pos h]

/-- Helper: a `finished` outcome means the step counter reached `steps`. -/
lemma trainLoop_finished_le (cfg : TrainConfig) (N : ℕ) :
    ∀ (trace : List (Except PyErr EnvStep)) (st stF : LoopState)
      (effsF : List Effect),
      trainLoop cfg N st trace = (LoopOutcome.finished stF, effsF) →
      cfg.steps ≤ stF.t := by
  intro trace
  induction trace with
  | nil =>
    intro st stF effsF h
    rw [trainLoop.eq_def] at h
    dsimp only at h
    by_cases hle : cfg.steps ≤ st.t
    · rw [if_pos hle] at h
      simp at h
      obtain ⟨h1, _⟩ := h
      exact h1 ▸ hle
    · rw [if_neg hle] at h
      simp at h
  | cons e rest ih =>
    intro st stF effsF h
    rw [trainLoop.eq_def] at h
    dsimp only at h
    by_cases hle : cfg.steps ≤ st.t
    · rw [if_pos hle] at h
      simp at h
      obtain ⟨h1, _⟩ := h
      exact h1 ▸ hle
    · rw [if_neg hle] at h
      cases e with
      | error err => simp at h
      | ok es =>
        dsimp only at h
        rcases hI : stepIter cfg N st es with ⟨res, effsI⟩
        rw [hI] at h
        cases res with
        | raised e2 t2 => simp at h
        | brk st2 => simp at h
        | cont st2 =>
          dsimp only at h
          rcases hp : trainLoop cfg N st2 rest with ⟨out, effs2⟩
          rw [hp] at h
          simp at h
          obtain ⟨h1, _⟩ := h
          exact ih st2 stF effs2 (by rw [hp, h1])

/-- Helper: an `earlyStop` outcome needs the evaluator success options. -/
lemma trainLoop_earlyStop_config (cfg : TrainConfig) (N : ℕ) :
    ∀ (trace : List (Except PyErr EnvStep)) (st stF : LoopState)
      (effsF : List Effect),
      trainLoop cfg N st trace = (LoopOutcome.earlyStop stF, effsF) →
      cfg.eval_interval.isSome = true ∧ cfg.evaluator = true
        ∧ cfg.successful_score.isSome = true := by
  intro trace
  induction trace with
  | nil =>
    intro st stF effsF h
    rw [trainLoop.eq_def] at h
    dsimp only at h
    by_cases hle : cfg.steps ≤ st.t
    · rw [if_pos hle] at h
      simp at h
    · rw [if_neg hle] at h
      simp at h
  | cons e rest ih =>
    intro st stF effsF h
    rw [trainLoop.eq_def] at h
    dsimp only at h
    by_cases hle : cfg.steps ≤ st.t
    · rw [if_pos hle] at h
      simp at h
    · rw [if_neg hle] at h
      cases e with
      | error err => simp at h
      | ok es =>
        dsimp only at h
        rcases hI : stepIter cfg N st es with ⟨res, effsI⟩
        rw [hI] at h
        cases res with
        | raised e2 t2 => simp at h
        | brk st2 => exact stepIter_brk_config cfg N st es st2 effsI hI
        | cont st2 =>
          dsimp only at h
          rcases hp : trainLoop cfg N st2 rest with ⟨out, effs2⟩
          rw [hp] at h
          simp at h
          obtain ⟨h1, _⟩ := h
          exact ih st2 stF effs2 (by rw [hp, h1])

/-- Claim C5: `t` starts at `step_offset` (also pushed into the agent's
counter when it has one), advances by exactly `N` per iteration, and the loop
ends normally exactly at `t ≥ steps` — or on the early-success break, which
requires an evaluator, an eval interval and a `successful_score`. -/
theorem step_counter_and_termination (cfg : TrainConfig) (N : ℕ) :
    (initState N cfg.step_offset).t = cfg.step_offset
  ∧ (∀ st es, (updState cfg N st es).t = st.t + N)
  ∧ (∀ st es stR effsR,
        (stepIter cfg N st es = (IterResult.cont stR, effsR)
         ∨ stepIter cfg N st es = (IterResult.brk stR, effsR)) →
        stR.t = st.t + N)
  ∧ (∀ trace st stF effsF,
        trainLoop cfg N st trace = (LoopOutcome.finished stF, effsF) →
        cfg.steps ≤ stF.t)
  ∧ (∀ st trace, cfg.steps ≤ st.t →
        trainLoop cfg N st trace = (LoopOutcome.finished st, []))
  ∧ (∀ env trace, env.num_envs = some N → cfg.agent_has_t = true →
        Effect.setAgentT cfg.step_offset ∈ (train_agent_batch cfg env trace).2)
  ∧ (∀ trace st stF effsF,
        trainLoop cfg N st trace = (LoopOutcome.earlyStop stF, effsF) →
        cfg.eval_interval.isSome = true ∧ cfg.evaluator = true
          ∧ cfg.successful_score.isSome = true) := by
  refine ⟨rfl, fun st es => rfl, ?_, ?_, ?_, ?_, ?_⟩
  · intro st es stR effsR h
    rw [stepIter_state cfg N st es stR effsR h]
    rfl
  · intro trace st stF effsF h
    exact trainLoop_finished_le cfg N trace st stF effsF h
  · intro st trace h
    exact trainLoop_stop cfg N st trace h
  · intro env trace hN hat
    unfold train_agent_batch
    rw [hN]
    dsimp only
    rcases hL : trainLoop cfg N (initState N cfg.step_offset) trace
      with ⟨out, effs⟩
    cases out <;> simp [initEffects, hat]

  · intro trace st stF effsF h
    exact trainLoop_earlyStop_config cfg N trace st stF effsF h

/-- Helper: hook effects are not file appends. -/
lemma hooks_no_fileAppend (n t : ℕ) :
    ((List.range n).map (fun h => Effect.stepHook h t)).filter isFileAppend
      = [] := by
  simp [List.filter_map, isFileAppend, Function.comp]

/-- Helper: `evalPhase` adds no file appends. -/
lemma evalPhase_filter_fileAppend (cfg : TrainConfig) (st2 : LoopState)
    (es : EnvStep) (t : ℕ) (effs : List Effect) :
    ((evalPhase cfg st2 es t effs).2).filter isFileAppend
      = effs.filter isFileAppend := by
  unfold evalPhase
  repeat' split
  all_goals simp [isFileAppend, List.filter_append]

/-- Claim C7: when `save_training_r` is set and the post-iteration `t` is a
multiple of `log_interval`, the iteration appends exactly one line
`str(t) + TAB + str(mean) + NEWLINE` to `training_r.txt` (append mode); the
mean of an empty window is the NaN sentinel, printed `nan` — never an
error. -/
theorem training_r_write (cfg : TrainConfig) (N : ℕ) (st : LoopState)
    (es : EnvStep) (l : ℕ) (hs : cfg.save_training_r = true)
    (hli : cfg.log_interval = some l) (hdue : (st.t + N) % l = 0) :
    (stepIter cfg N st es).2.filter isFileAppend
      = [write_to_file cfg.outdir (st.t + N)
          (formatAvg (npMean (updState cfg N st es).recent_returns))]
  ∧ (∀ outdir step avg, write_to_file outdir step avg
      = Effect.fileAppend (outdir ++ "/training_r.txt")
          (toString step ++ "\t" ++ avg ++ "\n"))
  ∧ npMean [] = none ∧ formatAvg none = "nan" := by
  refine ⟨?_, fun outdir step avg => rfl, rfl, rfl⟩
  unfold stepIter
  simp only [hs, if_true, if_false, Bool.false_eq_true]
  rw [hli]
  dsimp only
  rw [if_pos hdue]
  rw [evalPhase_filter_fileAppend]
  simp [List.filter_append, isFileAppend, hooks_no_fileAppend, write_to_file]

/-- Claim C10: leaving `log_interval` unset while `save_training_r` is on or
`eval_interval` is set makes the first iteration's logging check compute
`t % None`, raising `TypeError`, which `train_agent_batch` propagates. -/
theorem log_interval_none_type_error (cfg : TrainConfig) (N : ℕ)
    (st : LoopState) (es : EnvStep) (env : BatchEnv)
    (rest : List (Except PyErr EnvStep))
    (hli : cfg.log_interval = none)
    (hopt : cfg.save_training_r = true ∨ cfg.eval_interval.isSome = true)
    (hrun : cfg.step_offset < cfg.steps) (hN : env.num_envs = some N) :
    (stepIter cfg N st es).1 = IterResult.raised PyErr.typeError (st.t + N)
  ∧ (train_agent_batch cfg env (Except.ok es :: rest)).1
      = RunResult.error PyErr.typeError := by
  have hgen : ∀ stA : LoopState,
      (stepIter cfg N stA es).1
        = IterResult.raised PyErr.typeError (stA.t + N) := by
    intro stA
    unfold stepIter
    by_cases hsav : cfg.save_training_r = true <;>
      simp only [hsav, if_true, if_false, Bool.false_eq_true]
    · rw [hli]
    · rcases hopt with hopt | hopt
      · exact absurd hopt hsav
      · unfold evalPhase
        rcases hei : cfg.eval_interval with _ | ei
        · rw [hei] at hopt; simp at hopt
        · dsimp only
          rw [hli]
  refine ⟨hgen st, ?_⟩
  unfold train_agent_batch
  rw [hN]
  dsimp only
  rw [trainLoop.eq_def]
  dsimp only
  rw [if_neg (by simp [initState]; omega)]
  rcases hI : stepIter cfg N (initState N cfg.step_offset) es with ⟨res, effsI⟩
  have hres := hgen (initState N cfg.step_offset)
  rw [hI] at hres
  dsimp only at hres
  subst hres
  rfl


/-- Witness for `continuation_mask_negation` at `reset = [false]`,
`done = [true]`, slot 0, inside the two-env scenario's first iteration. -/
theorem continuation_mask_negation_witness :
    (0 < ([false] : List Bool).length) ∧ (0 < ([true] : List Bool).length)
  ∧ (continuation_mask [false] [true])[0]? = some false
  ∧ Effect.envResetMask (iterMasks (plainConfig 4) 2 (initState 2 0) twoEnvStepA)
      ∈ (stepIter (plainConfig 4) 2 (initState 2 0) twoEnvStepA).2 := by
  have h := continuation_mask_negation (plainConfig 4) 2 (initState 2 0)
    twoEnvStepA [false] [true] 0 (by decide) (by decide)
  exact ⟨by decide, by decide, by simpa using h.1, h.2.1⟩

/-- Witness for `episode_bookkeeping`: in the two-env scenario's first
iteration slot 1 is done, so its index becomes 1 and its return 2 is in the
extension batch. -/
theorem episode_bookkeeping_witness :
    (iterMasks (plainConfig 4) 2 (initState 2 0) twoEnvStepA)[1]? = some false
  ∧ (updState (plainConfig 4) 2 (initState 2 0) twoEnvStepA).episode_idx[1]?
      = some 1
  ∧ (2 : ℚ) ∈ compressedEnded
      (addLists (initState 2 0).episode_r twoEnvStepA.r)
      (iterMasks (plainConfig 4) 2 (initState 2 0) twoEnvStepA) := by
  have h := episode_bookkeeping (plainConfig 4) 2 (initState 2 0) twoEnvStepA
      (updState (plainConfig 4) 2 (initState 2 0) twoEnvStepA)
      ((stepIter (plainConfig 4) 2 (initState 2 0) twoEnvStepA).2) 1
      (by decide) (by decide) (by decide) (by decide) (by decide) (by decide)
      (Or.inl rfl)
  have hmask : (iterMasks (plainConfig 4) 2 (initState 2 0) twoEnvStepA)[1]?
      = some false := by decide
  have h2 := h.2.1 hmask
  refine ⟨hmask, ?_, ?_⟩
  · have := h2.2.2.1
    simpa [initState] using this
  · have := h2.2.2.2
    have hval : (initState 2 0).episode_r.get ⟨1, by decide⟩
        + twoEnvStepA.r.get ⟨1, by decide⟩ = (2 : ℚ) := by
      simp [initState, twoEnvStepA]
    rwa [hval] at this

/-- Witness for `step_counter_and_termination`: `t` starts at the offset,
one iteration advances it by N = 2, and a loop whose counter already passed
`steps` finishes at once. -/
theorem step_counter_and_termination_witness :
    (initState 2 (plainConfig 4).step_offset).t = (plainConfig 4).step_offset
  ∧ (updState (plainConfig 4) 2 (initState 2 0) twoEnvStepA).t = 0 + 2
  ∧ ((plainConfig 4).steps
        ≤ (LoopState.mk [] [] [] [] 7).t
     ∧ trainLoop (plainConfig 4) 2 (LoopState.mk [] [] [] [] 7) []
        = (LoopOutcome.finished (LoopState.mk [] [] [] [] 7), [])) := by
  refine ⟨(step_counter_and_termination (plainConfig 4) 2).1,
    (step_counter_and_termination (plainConfig 4) 2).2.1 (initState 2 0)
      twoEnvStepA,
    by decide,
    (step_counter_and_termination (plainConfig 4) 2).2.2.2.2.1
      (LoopState.mk [] [] [] [] 7) [] (by decide)⟩

/-- Witness for `training_r_write`: with `log_interval = 1` and
`save_training_r` on, the first iteration writes exactly one line. -/
theorem training_r_write_witness :
    writeConfig.save_training_r = true
  ∧ writeConfig.log_interval = some 1
  ∧ ((initState 1 0).t + 1) % 1 = 0
  ∧ (stepIter writeConfig 1 (initState 1 0) truncStep).2.filter isFileAppend
      = [write_to_file writeConfig.outdir ((initState 1 0).t + 1)
          (formatAvg (npMean
            (updState writeConfig 1 (initState 1 0) truncStep).recent_returns))] :=
  ⟨rfl, rfl, by decide,
   (training_r_write writeConfig 1 (initState 1 0) truncStep 1 rfl rfl
      (by decide)).1⟩

/-- Witness for `log_interval_none_type_error`: `save_training_r` without a
`log_interval` makes the first iteration raise `TypeError`, which the
wrapper propagates. -/
theorem log_interval_none_type_error_witness :
    noIntervalConfig.log_interval = none
  ∧ (noIntervalConfig.save_training_r = true
     ∨ noIntervalConfig.eval_interval.isSome = true)
  ∧ noIntervalConfig.step_offset < noIntervalConfig.steps
  ∧ (stepIter noIntervalConfig 1 (initState 1 0) truncStep).1
      = IterResult.raised PyErr.typeError ((initState 1 0).t + 1)
  ∧ (train_agent_batch noIntervalConfig { num_envs := some 1 }
        [Except.ok truncStep]).1 = RunResult.error PyErr.typeError := by
  have h := log_interval_none_type_error noIntervalConfig 1 (initState 1 0)
      truncStep { num_envs := some 1 } [] rfl (Or.inl rfl) (by decide) rfl
  exact ⟨rfl, Or.inl rfl, by decide, h.1, h.2⟩

end ChainerRL
